import Mathlib

/-!
Shallow embedding of `src/self_storage_cost_calculator.py`.

Real-number arithmetic of the Python source is modelled over `ℚ`; the
Python built-in `round(x, n)` (round-half-to-even to `n` decimal digits)
is modelled by `pyRound n x` below.
-/

/-- The Python built-in `round` to an integer: round half to even. -/
def roundHalfEven (q : ℚ) : ℤ :=
  if q - ⌊q⌋ < 1/2 then ⌊q⌋
  else if q - ⌊q⌋ = 1/2 then (if 2 ∣ ⌊q⌋ then ⌊q⌋ else ⌊q⌋ + 1)
  else ⌊q⌋ + 1

/-- The Python built-in `round(x, n)` for a nonnegative digit count `n`. -/
def pyRound (n : ℕ) (x : ℚ) : ℚ := (roundHalfEven (x * 10 ^ n) : ℚ) / 10 ^ n

/-- Module constant `COEFF_GRAY_LIN = 0.79`. -/
def COEFF_GRAY_LIN : ℚ := 0.79

/-- Module constant `COEFF_KICKER_LIN = 0.23`. -/
def COEFF_KICKER_LIN : ℚ := 0.23

/-- Module constant `COEFF_DOOR_DENSITY = 0.30`. -/
def COEFF_DOOR_DENSITY : ℚ := 0.30

/-- Module constant `DOOR_HEIGHT_STANDARD = 2.1`. -/
def DOOR_HEIGHT_STANDARD : ℚ := 2.1

/-- Module constant `PRICE_WHITE = 110`. -/
def PRICE_WHITE : ℚ := 110

/-- Module constant `PRICE_GRAY = 84`. -/
def PRICE_GRAY : ℚ := 84

/-- Module constant `PRICE_KICKER = 81`. -/
def PRICE_KICKER : ℚ := 81

/-- Module constant `PRICE_DOOR_1M = 780`. -/
def PRICE_DOOR_1M : ℚ := 780

/-- Module constant `PRICE_DOOR_075M = 780`. -/
def PRICE_DOOR_075M : ℚ := 780

/-- The dataclass `MaterialReport`. -/
structure MaterialReport where
  gray_area_m2 : ℚ
  white_area_m2 : ℚ
  kicker_length_mb : ℚ
  door_count : ℚ
  avg_door_width_m : ℚ
  cost_gray_pln : ℚ
  cost_white_pln : ℚ
  cost_kicker_pln : ℚ
  cost_doors_pln : ℚ
  cost_total_pln : ℚ
deriving DecidableEq

/-- The configured price table of `SelfStorageCostCalculator.__init__`. -/
structure SelfStorageCostCalculator where
  price_white : ℚ
  price_gray : ℚ
  price_kicker : ℚ
  price_door_1m : ℚ
  price_door_075m : ℚ
deriving DecidableEq

/-- A calculator constructed with all default prices. -/
def defaultCalculator : SelfStorageCostCalculator :=
  { price_white := PRICE_WHITE
    price_gray := PRICE_GRAY
    price_kicker := PRICE_KICKER
    price_door_1m := PRICE_DOOR_1M
    price_door_075m := PRICE_DOOR_075M }

/-- Method `_avg_door_width`. -/
def avg_door_width (pct_door_075 pct_door_1m : ℚ) : ℚ :=
  pct_door_075 * 0.75 + pct_door_1m * 1.0

/-- Method `_door_count`. -/
def door_count_of (pum : ℚ) : ℚ := pum * COEFF_DOOR_DENSITY

/-- Method `_door_cost`. -/
def door_cost (c : SelfStorageCostCalculator)
    (door_count pct_door_075 pct_door_1m : ℚ) : ℚ :=
  door_count * pct_door_075 * c.price_door_075m +
    door_count * pct_door_1m * c.price_door_1m

/-- Method `SelfStorageCostCalculator.calculate`. -/
def calculate (c : SelfStorageCostCalculator)
    (pum_m2 height_m pct_door_075 pct_door_1m : ℚ) : MaterialReport :=
  let gray_mb := pum_m2 * COEFF_GRAY_LIN
  let gray_area := gray_mb * height_m
  let kicker_length := pum_m2 * COEFF_KICKER_LIN
  let white_part_lower := (pum_m2 * COEFF_KICKER_LIN) * height_m
  let door_count := door_count_of pum_m2
  let avg_width := avg_door_width pct_door_075 pct_door_1m
  let height_above_door := max 0 (height_m - DOOR_HEIGHT_STANDARD)
  let white_part_lintels := (pum_m2 * COEFF_DOOR_DENSITY) * avg_width * height_above_door
  let white_area := white_part_lower + white_part_lintels
  let cost_gray := gray_area * c.price_gray
  let cost_white := white_area * c.price_white
  let cost_kicker := kicker_length * c.price_kicker
  let cost_doors := door_cost c door_count pct_door_075 pct_door_1m
  let cost_total := cost_gray + cost_white + cost_kicker + cost_doors
  { gray_area_m2 := pyRound 2 gray_area
    white_area_m2 := pyRound 2 white_area
    kicker_length_mb := pyRound 2 kicker_length
    door_count := pyRound 1 door_count
    avg_door_width_m := pyRound 3 avg_width
    cost_gray_pln := pyRound 2 cost_gray
    cost_white_pln := pyRound 2 cost_white
    cost_kicker_pln := pyRound 2 cost_kicker
    cost_doors_pln := pyRound 2 cost_doors
    cost_total_pln := pyRound 2 cost_total }

/-- The `analysis` dictionary built by `height_sensitivity_analysis`. -/
structure HeightSensitivitySummary where
  height_high_m : ℚ
  height_low_m : ℚ
  pum_m2 : ℚ
  savings_white_pln : ℚ
  savings_gray_pln : ℚ
  savings_total_pln : ℚ
  white_high_m2 : ℚ
  white_low_m2 : ℚ
  gray_high_m2 : ℚ
  gray_low_m2 : ℚ
deriving DecidableEq

/-- Method `SelfStorageCostCalculator.height_sensitivity_analysis`. -/
def height_sensitivity_analysis (c : SelfStorageCostCalculator)
    (pum_m2 height_high height_low pct_door_075 pct_door_1m : ℚ) :
    MaterialReport × MaterialReport × HeightSensitivitySummary :=
  let r_high := calculate c pum_m2 height_high pct_door_075 pct_door_1m
  let r_low := calculate c pum_m2 height_low pct_door_075 pct_door_1m
  let savings_white := r_high.cost_white_pln - r_low.cost_white_pln
  let savings_gray := r_high.cost_gray_pln - r_low.cost_gray_pln
  let savings_total := r_high.cost_total_pln - r_low.cost_total_pln
  (r_high, r_low,
    { height_high_m := height_high
      height_low_m := height_low
      pum_m2 := pum_m2
      savings_white_pln := pyRound 2 savings_white
      savings_gray_pln := pyRound 2 savings_gray
      savings_total_pln := pyRound 2 savings_total
      white_high_m2 := r_high.white_area_m2
      white_low_m2 := r_low.white_area_m2
      gray_high_m2 := r_high.gray_area_m2
      gray_low_m2 := r_low.gray_area_m2 })

/-- Evaluation lemma: if `n ≤ q < n + 1/2` then half-even rounding gives `n`. -/
theorem roundHalfEven_eq_low {q : ℚ} {n : ℤ} (h1 : (n : ℚ) ≤ q)
    (h2 : q < (n : ℚ) + 1/2) : roundHalfEven q = n := by
  have hf : ⌊q⌋ = n := Int.floor_eq_iff.mpr ⟨h1, by linarith⟩
  unfold roundHalfEven
  rw [hf, if_pos (by linarith)]

/-- Evaluation lemma: if `n - 1/2 < q ≤ n` then half-even rounding gives `n`. -/
theorem roundHalfEven_eq_high {q : ℚ} {n : ℤ} (h1 : (n : ℚ) - 1/2 < q)
    (h2 : q ≤ (n : ℚ)) : roundHalfEven q = n := by
  rcases eq_or_lt_of_le h2 with he | hlt
  · have hf : ⌊q⌋ = n := Int.floor_eq_iff.mpr ⟨le_of_eq he.symm, by linarith⟩
    unfold roundHalfEven
    rw [hf, if_pos (by linarith)]
  · have hf : ⌊q⌋ = n - 1 := Int.floor_eq_iff.mpr ⟨by push_cast; linarith, by push_cast; linarith⟩
    unfold roundHalfEven
    rw [hf, if_neg (by push_cast; linarith), if_neg (by push_cast; linarith)]
    omega

/-- Evaluation lemma: an exact half above an odd integer rounds up. -/
theorem roundHalfEven_eq_half_odd {q : ℚ} {n : ℤ} (hq : q = (n : ℚ) + 1/2)
    (hodd : ¬ 2 ∣ n) : roundHalfEven q = n + 1 := by
  have hf : ⌊q⌋ = n := Int.floor_eq_iff.mpr ⟨by linarith, by linarith⟩
  unfold roundHalfEven
  rw [hf, if_neg (by linarith), if_pos (by linarith), if_neg hodd]

/-- Half-even rounding fixes the integers. -/
theorem roundHalfEven_intCast (n : ℤ) : roundHalfEven (n : ℚ) = n :=
  roundHalfEven_eq_low le_rfl (by norm_num)

/-- Lower bound: the floor never exceeds the half-even rounding. -/
theorem le_roundHalfEven (q : ℚ) : ⌊q⌋ ≤ roundHalfEven q := by
  unfold roundHalfEven
  split_ifs <;> omega

/-- Upper bound: half-even rounding never exceeds the floor plus one. -/
theorem roundHalfEven_le (q : ℚ) : roundHalfEven q ≤ ⌊q⌋ + 1 := by
  unfold roundHalfEven
  split_ifs <;> omega

/-- Half-even rounding is monotone. -/
theorem roundHalfEven_mono {x y : ℚ} (h : x ≤ y) :
    roundHalfEven x ≤ roundHalfEven y := by
  rcases lt_or_eq_of_le (Int.floor_le_floor h) with hf | hf
  · calc roundHalfEven x ≤ ⌊x⌋ + 1 := roundHalfEven_le x
    _ ≤ ⌊y⌋ := by omega
    _ ≤ roundHalfEven y := le_roundHalfEven y
  · have hyx : x - (⌊x⌋ : ℚ) ≤ y - (⌊y⌋ : ℚ) := by rw [← hf]; linarith
    rcases lt_trichotomy (x - (⌊x⌋ : ℚ)) (1/2) with hx | hx | hx
    · have h1 : roundHalfEven x = ⌊x⌋ := by
        unfold roundHalfEven; rw [if_pos hx]
      rw [h1, hf]; exact le_roundHalfEven y
    · rcases lt_trichotomy (y - (⌊y⌋ : ℚ)) (1/2) with hy | hy | hy
      · linarith
      · have hxy : x = y := by
          have e1 : x = (⌊x⌋ : ℚ) + 1/2 := by linarith
          have e2 : y = (⌊y⌋ : ℚ) + 1/2 := by linarith
          rw [e1, e2, hf]
        rw [hxy]
      · have h2 : roundHalfEven y = ⌊y⌋ + 1 := by
          unfold roundHalfEven; rw [if_neg (by linarith), if_neg (by linarith)]
        rw [h2, ← hf]
        exact roundHalfEven_le x
    · have hy : 1/2 < y - (⌊y⌋ : ℚ) := by linarith
      have h1 : roundHalfEven x = ⌊x⌋ + 1 := by
        unfold roundHalfEven; rw [if_neg (by linarith), if_neg (by linarith)]
      have h2 : roundHalfEven y = ⌊y⌋ + 1 := by
        unfold roundHalfEven; rw [if_neg (by linarith), if_neg (by linarith)]
      rw [h1, h2]
      omega

/-- `pyRound` is monotone. -/
theorem pyRound_mono {x y : ℚ} (n : ℕ) (h : x ≤ y) : pyRound n x ≤ pyRound n y := by
  unfold pyRound
  have hten : (0 : ℚ) < 10 ^ n := by positivity
  have hm : roundHalfEven (x * 10 ^ n) ≤ roundHalfEven (y * 10 ^ n) :=
    roundHalfEven_mono (mul_le_mul_of_nonneg_right h hten.le)
  exact (div_le_div_iff_of_pos_right hten).mpr (by exact_mod_cast hm)

/-- `pyRound` of zero is zero. -/
theorem pyRound_zero (n : ℕ) : pyRound n 0 = 0 := by
  unfold pyRound
  rw [zero_mul]
  have h0 : roundHalfEven ((0 : ℤ) : ℚ) = 0 := roundHalfEven_intCast 0
  rw [Int.cast_zero] at h0
  rw [h0]
  norm_num

/-- `pyRound` preserves nonnegativity. -/
theorem pyRound_nonneg {x : ℚ} (n : ℕ) (h : 0 ≤ x) : 0 ≤ pyRound n x :=
  pyRound_zero n ▸ pyRound_mono n h

/-- `pyRound n` fixes every multiple of `10 ^ (-n)`. -/
theorem pyRound_int_div (n : ℕ) (a : ℤ) :
    pyRound n ((a : ℚ) / 10 ^ n) = (a : ℚ) / 10 ^ n := by
  unfold pyRound
  have h10 : ((10 : ℚ)) ^ n ≠ 0 := by positivity
  rw [div_mul_cancel₀ _ h10, roundHalfEven_intCast]

/-- Rounding a difference of rounded values changes nothing. -/
theorem pyRound_sub_pyRound (n : ℕ) (x y : ℚ) :
    pyRound n (pyRound n x - pyRound n y) = pyRound n x - pyRound n y := by
  have hx : pyRound n x = (roundHalfEven (x * 10 ^ n) : ℚ) / 10 ^ n := rfl
  have hy : pyRound n y = (roundHalfEven (y * 10 ^ n) : ℚ) / 10 ^ n := rfl
  rw [hx, hy]
  have hsub : (roundHalfEven (x * 10 ^ n) : ℚ) / 10 ^ n -
      (roundHalfEven (y * 10 ^ n) : ℚ) / 10 ^ n =
      ((roundHalfEven (x * 10 ^ n) - roundHalfEven (y * 10 ^ n) : ℤ) : ℚ) / 10 ^ n := by
    push_cast
    ring
  rw [hsub, pyRound_int_div]

/-- Projection: the gray-area field of `calculate`. -/
theorem calculate_gray (c : SelfStorageCostCalculator) (pum h p q : ℚ) :
    (calculate c pum h p q).gray_area_m2 = pyRound 2 (pum * COEFF_GRAY_LIN * h) := rfl

/-- Projection: the white-area field of `calculate`. -/
theorem calculate_white (c : SelfStorageCostCalculator) (pum h p q : ℚ) :
    (calculate c pum h p q).white_area_m2 =
      pyRound 2 (pum * COEFF_KICKER_LIN * h +
        pum * COEFF_DOOR_DENSITY * avg_door_width p q *
          max 0 (h - DOOR_HEIGHT_STANDARD)) := rfl

/-- Projection: the kicker-length field of `calculate`. -/
theorem calculate_kicker (c : SelfStorageCostCalculator) (pum h p q : ℚ) :
    (calculate c pum h p q).kicker_length_mb = pyRound 2 (pum * COEFF_KICKER_LIN) := rfl

/-- Projection: the door-count field of `calculate`. -/
theorem calculate_door_count (c : SelfStorageCostCalculator) (pum h p q : ℚ) :
    (calculate c pum h p q).door_count = pyRound 1 (pum * COEFF_DOOR_DENSITY) := rfl

/-- Projection: the average-door-width field of `calculate`. -/
theorem calculate_avg (c : SelfStorageCostCalculator) (pum h p q : ℚ) :
    (calculate c pum h p q).avg_door_width_m = pyRound 3 (avg_door_width p q) := rfl

/-- Projection: the gray-cost field of `calculate`. -/
theorem calculate_cost_gray (c : SelfStorageCostCalculator) (pum h p q : ℚ) :
    (calculate c pum h p q).cost_gray_pln =
      pyRound 2 (pum * COEFF_GRAY_LIN * h * c.price_gray) := rfl

/-- Projection: the white-cost field of `calculate`. -/
theorem calculate_cost_white (c : SelfStorageCostCalculator) (pum h p q : ℚ) :
    (calculate c pum h p q).cost_white_pln =
      pyRound 2 ((pum * COEFF_KICKER_LIN * h +
        pum * COEFF_DOOR_DENSITY * avg_door_width p q *
          max 0 (h - DOOR_HEIGHT_STANDARD)) * c.price_white) := rfl

/-- Projection: the kicker-cost field of `calculate`. -/
theorem calculate_cost_kicker (c : SelfStorageCostCalculator) (pum h p q : ℚ) :
    (calculate c pum h p q).cost_kicker_pln =
      pyRound 2 (pum * COEFF_KICKER_LIN * c.price_kicker) := rfl

/-- Projection: the door-cost field of `calculate`. -/
theorem calculate_cost_doors (c : SelfStorageCostCalculator) (pum h p q : ℚ) :
    (calculate c pum h p q).cost_doors_pln =
      pyRound 2 (door_cost c (door_count_of pum) p q) := rfl

/-- Projection: the total-cost field of `calculate`. -/
theorem calculate_cost_total (c : SelfStorageCostCalculator) (pum h p q : ℚ) :
    (calculate c pum h p q).cost_total_pln =
      pyRound 2 (pum * COEFF_GRAY_LIN * h * c.price_gray +
        (pum * COEFF_KICKER_LIN * h +
          pum * COEFF_DOOR_DENSITY * avg_door_width p q *
            max 0 (h - DOOR_HEIGHT_STANDARD)) * c.price_white +
        pum * COEFF_KICKER_LIN * c.price_kicker +
        door_cost c (door_count_of pum) p q) := rfl

/-- Evaluation of `pyRound` by exhibiting the rounded integer, low-fraction case. -/
theorem pyRound_eval_low {n : ℕ} {x r : ℚ} {a : ℤ} (h1 : (a : ℚ) ≤ x * 10 ^ n)
    (h2 : x * 10 ^ n < (a : ℚ) + 1/2) (h3 : (a : ℚ) / 10 ^ n = r) : pyRound n x = r := by
  unfold pyRound
  rw [roundHalfEven_eq_low h1 h2]
  exact h3

/-- Evaluation of `pyRound` by exhibiting the rounded integer, high-fraction case. -/
theorem pyRound_eval_high {n : ℕ} {x r : ℚ} {a : ℤ} (h1 : (a : ℚ) - 1/2 < x * 10 ^ n)
    (h2 : x * 10 ^ n ≤ (a : ℚ)) (h3 : (a : ℚ) / 10 ^ n = r) : pyRound n x = r := by
  unfold pyRound
  rw [roundHalfEven_eq_high h1 h2]
  exact h3

/-- Evaluation of `pyRound` at an exact half above an odd integer. -/
theorem pyRound_eval_half_odd {n : ℕ} {x r : ℚ} {a : ℤ}
    (h1 : x * 10 ^ n = (a : ℚ) + 1/2) (h2 : ¬ 2 ∣ a)
    (h3 : ((a : ℚ) + 1) / 10 ^ n = r) : pyRound n x = r := by
  unfold pyRound
  rw [roundHalfEven_eq_half_odd h1 h2]
  push_cast
  exact h3

/-- Claim C1: for positive floor area and height and door-mix percentages in
the unit interval, the white wall area equals the rounded sum of the lower
solid portion and the lintel portion, and when the height is at most the
2.1 m door clear height the lintel portion vanishes, leaving only the solid
portion. -/
theorem C1_white_area (c : SelfStorageCostCalculator) (pum h p q : ℚ)
    (hpum : 0 < pum) (hp0 : 0 ≤ p) (hp1 : p ≤ 1) (hq0 : 0 ≤ q) (hq1 : q ≤ 1)
    (hh : 0 < h) :
    (calculate c pum h p q).white_area_m2 =
      pyRound 2 (pum * 0.23 * h +
        pum * 0.30 * (p * 0.75 + q * 1.0) * max 0 (h - 2.1)) ∧
    (h ≤ 2.1 → (calculate c pum h p q).white_area_m2 = pyRound 2 (pum * 0.23 * h)) := by
  constructor
  · rfl
  · intro hle
    rw [calculate_white]
    have hmax : max 0 (h - DOOR_HEIGHT_STANDARD) = 0 :=
      max_eq_left (by unfold DOOR_HEIGHT_STANDARD; linarith)
    rw [hmax, mul_zero, add_zero]
    rfl

/-- Witness for claim C1 at floor area 130, height 2.7, door mix 60/40. -/
theorem C1_white_area_witness :
    (calculate defaultCalculator 130 2.7 0.6 0.4).white_area_m2 =
      pyRound 2 (130 * 0.23 * 2.7 +
        130 * 0.30 * (0.6 * 0.75 + 0.4 * 1.0) * max 0 (2.7 - 2.1)) ∧
    ((2.7 : ℚ) ≤ 2.1 →
      (calculate defaultCalculator 130 2.7 0.6 0.4).white_area_m2 =
        pyRound 2 (130 * 0.23 * 2.7)) :=
  C1_white_area defaultCalculator 130 2.7 0.6 0.4 (by norm_num) (by norm_num)
    (by norm_num) (by norm_num) (by norm_num) (by norm_num)

/-- Claim C2: the gray area, kicker length and door count fields are the
rounded linear-density formulas, and at floor area 130 and height 2.7 they
evaluate to 277.29, 29.9 and 39.0 for any door mix. -/
theorem C2_report_formulas :
    (∀ (c : SelfStorageCostCalculator) (pum h p q : ℚ),
      (calculate c pum h p q).gray_area_m2 = pyRound 2 (pum * 0.79 * h) ∧
      (calculate c pum h p q).kicker_length_mb = pyRound 2 (pum * 0.23) ∧
      (calculate c pum h p q).door_count = pyRound 1 (pum * 0.30)) ∧
    (∀ p q : ℚ,
      (calculate defaultCalculator 130 2.7 p q).gray_area_m2 = 277.29 ∧
      (calculate defaultCalculator 130 2.7 p q).kicker_length_mb = 29.9 ∧
      (calculate defaultCalculator 130 2.7 p q).door_count = 39.0) := by
  constructor
  · exact fun c pum h p q => ⟨rfl, rfl, rfl⟩
  · intro p q
    refine ⟨?_, ?_, ?_⟩
    · rw [calculate_gray]
      exact pyRound_eval_low (a := 27729) (by norm_num [COEFF_GRAY_LIN])
        (by norm_num [COEFF_GRAY_LIN]) (by norm_num)
    · rw [calculate_kicker]
      exact pyRound_eval_low (a := 2990) (by norm_num [COEFF_KICKER_LIN])
        (by norm_num [COEFF_KICKER_LIN]) (by norm_num)
    · rw [calculate_door_count]
      exact pyRound_eval_low (a := 390) (by norm_num [COEFF_DOOR_DENSITY])
        (by norm_num [COEFF_DOOR_DENSITY]) (by norm_num)

/-- Claim C3 counterexample: at floor area 1 with heights 1 and 1.001 the
rounded gray-area field is 0.79 at both heights, so the increase is not
strict as claimed. -/
theorem C3_monotone_cex :
    (1 : ℚ) < 1.001 ∧ (0 : ℚ) < 1 ∧
    (calculate defaultCalculator 1 1 (1/2) (1/2)).gray_area_m2 = 0.79 ∧
    (calculate defaultCalculator 1 1.001 (1/2) (1/2)).gray_area_m2 = 0.79 := by
  refine ⟨by norm_num, by norm_num, ?_, ?_⟩
  · rw [calculate_gray]
    exact pyRound_eval_low (a := 79) (by norm_num [COEFF_GRAY_LIN])
      (by norm_num [COEFF_GRAY_LIN]) (by norm_num)
  · rw [calculate_gray]
    exact pyRound_eval_low (a := 79) (by norm_num [COEFF_GRAY_LIN])
      (by norm_num [COEFF_GRAY_LIN]) (by norm_num)

/-- Claim C3 (amended): for fixed positive floor area and a door mix in the
unit interval, raising the height never decreases the rounded gray and white
area fields, and leaves kicker length and door count unchanged; strictness
fails on the rounded report fields because rounding can collapse nearby
heights. -/
theorem C3_monotone (c : SelfStorageCostCalculator) (pum h1 h2 p q : ℚ)
    (hpum : 0 < pum) (hp0 : 0 ≤ p) (hp1 : p ≤ 1) (hq0 : 0 ≤ q) (hq1 : q ≤ 1)
    (hlt : h1 < h2) :
    (calculate c pum h1 p q).gray_area_m2 ≤ (calculate c pum h2 p q).gray_area_m2 ∧
    (calculate c pum h1 p q).white_area_m2 ≤ (calculate c pum h2 p q).white_area_m2 ∧
    (calculate c pum h1 p q).kicker_length_mb = (calculate c pum h2 p q).kicker_length_mb ∧
    (calculate c pum h1 p q).door_count = (calculate c pum h2 p q).door_count := by
  have havg : 0 ≤ avg_door_width p q := by
    unfold avg_door_width; linarith
  refine ⟨?_, ?_, rfl, rfl⟩
  · rw [calculate_gray, calculate_gray]
    refine pyRound_mono 2 ?_
    have hc : (0 : ℚ) ≤ pum * COEFF_GRAY_LIN := by
      unfold COEFF_GRAY_LIN; positivity
    exact mul_le_mul_of_nonneg_left hlt.le hc
  · rw [calculate_white, calculate_white]
    refine pyRound_mono 2 ?_
    have hk : (0 : ℚ) ≤ pum * COEFF_KICKER_LIN := by
      unfold COEFF_KICKER_LIN; positivity
    have hd : (0 : ℚ) ≤ pum * COEFF_DOOR_DENSITY * avg_door_width p q := by
      have hdd : (0 : ℚ) ≤ pum * COEFF_DOOR_DENSITY := by
        unfold COEFF_DOOR_DENSITY; positivity
      exact mul_nonneg hdd havg
    have hmax : max 0 (h1 - DOOR_HEIGHT_STANDARD) ≤ max 0 (h2 - DOOR_HEIGHT_STANDARD) :=
      max_le_max le_rfl (by linarith)
    have hlow : pum * COEFF_KICKER_LIN * h1 ≤ pum * COEFF_KICKER_LIN * h2 :=
      mul_le_mul_of_nonneg_left hlt.le hk
    have hlin : pum * COEFF_DOOR_DENSITY * avg_door_width p q *
        max 0 (h1 - DOOR_HEIGHT_STANDARD) ≤
        pum * COEFF_DOOR_DENSITY * avg_door_width p q *
        max 0 (h2 - DOOR_HEIGHT_STANDARD) :=
      mul_le_mul_of_nonneg_left hmax hd
    linarith

/-- Witness for claim C3 at floor area 130, heights 2.5 and 3, door mix 60/40. -/
theorem C3_monotone_witness :
    (calculate defaultCalculator 130 2.5 0.6 0.4).gray_area_m2 ≤
      (calculate defaultCalculator 130 3 0.6 0.4).gray_area_m2 ∧
    (calculate defaultCalculator 130 2.5 0.6 0.4).white_area_m2 ≤
      (calculate defaultCalculator 130 3 0.6 0.4).white_area_m2 ∧
    (calculate defaultCalculator 130 2.5 0.6 0.4).kicker_length_mb =
      (calculate defaultCalculator 130 3 0.6 0.4).kicker_length_mb ∧
    (calculate defaultCalculator 130 2.5 0.6 0.4).door_count =
      (calculate defaultCalculator 130 3 0.6 0.4).door_count :=
  C3_monotone defaultCalculator 130 2.5 3 0.6 0.4 (by norm_num) (by norm_num)
    (by norm_num) (by norm_num) (by norm_num) (by norm_num)

/-- Claim C4: each savings field of the sensitivity analysis equals the
difference of the corresponding already-rounded cost fields of the two
reports, rounded again to two decimals; since those fields lie on the
hundredth grid the savings in fact equal the plain difference. -/
theorem C4_savings (c : SelfStorageCostCalculator) (pum ha hb p q : ℚ) :
    ((height_sensitivity_analysis c pum ha hb p q).2.2.savings_total_pln =
      pyRound 2 ((calculate c pum ha p q).cost_total_pln -
        (calculate c pum hb p q).cost_total_pln) ∧
     (height_sensitivity_analysis c pum ha hb p q).2.2.savings_total_pln =
      (calculate c pum ha p q).cost_total_pln -
        (calculate c pum hb p q).cost_total_pln) ∧
    ((height_sensitivity_analysis c pum ha hb p q).2.2.savings_white_pln =
      pyRound 2 ((calculate c pum ha p q).cost_white_pln -
        (calculate c pum hb p q).cost_white_pln) ∧
     (height_sensitivity_analysis c pum ha hb p q).2.2.savings_white_pln =
      (calculate c pum ha p q).cost_white_pln -
        (calculate c pum hb p q).cost_white_pln) ∧
    ((height_sensitivity_analysis c pum ha hb p q).2.2.savings_gray_pln =
      pyRound 2 ((calculate c pum ha p q).cost_gray_pln -
        (calculate c pum hb p q).cost_gray_pln) ∧
     (height_sensitivity_analysis c pum ha hb p q).2.2.savings_gray_pln =
      (calculate c pum ha p q).cost_gray_pln -
        (calculate c pum hb p q).cost_gray_pln) := by
  refine ⟨⟨rfl, ?_⟩, ⟨rfl, ?_⟩, ⟨rfl, ?_⟩⟩
  · show pyRound 2 ((calculate c pum ha p q).cost_total_pln -
      (calculate c pum hb p q).cost_total_pln) = _
    rw [calculate_cost_total c pum ha p q, calculate_cost_total c pum hb p q]
    exact pyRound_sub_pyRound 2 _ _
  · show pyRound 2 ((calculate c pum ha p q).cost_white_pln -
      (calculate c pum hb p q).cost_white_pln) = _
    rw [calculate_cost_white c pum ha p q, calculate_cost_white c pum hb p q]
    exact pyRound_sub_pyRound 2 _ _
  · show pyRound 2 ((calculate c pum ha p q).cost_gray_pln -
      (calculate c pum hb p q).cost_gray_pln) = _
    rw [calculate_cost_gray c pum ha p q, calculate_cost_gray c pum hb p q]
    exact pyRound_sub_pyRound 2 _ _

/-- Claim C5 counterexample: at zero floor area the average-door-width field
is 0.875 for the default 50/50 mix, hence strictly positive rather than 0. -/
theorem C5_zero_cex :
    (calculate defaultCalculator 0 2.7 (1/2) (1/2)).avg_door_width_m = 0.875 ∧
    (0 : ℚ) < 0.875 := by
  refine ⟨?_, by norm_num⟩
  rw [calculate_avg]
  exact pyRound_eval_low (a := 875) (by norm_num [avg_door_width])
    (by norm_num [avg_door_width]) (by norm_num)

/-- Claim C5 (amended): at zero floor area every field of the report is 0
except the average door width, which is the rounded mix-weighted width and
does not depend on the floor area. -/
theorem C5_zero_report (c : SelfStorageCostCalculator) (h p q : ℚ) :
    (calculate c 0 h p q).gray_area_m2 = 0 ∧
    (calculate c 0 h p q).white_area_m2 = 0 ∧
    (calculate c 0 h p q).kicker_length_mb = 0 ∧
    (calculate c 0 h p q).door_count = 0 ∧
    (calculate c 0 h p q).avg_door_width_m = pyRound 3 (p * 0.75 + q * 1.0) ∧
    (calculate c 0 h p q).cost_gray_pln = 0 ∧
    (calculate c 0 h p q).cost_white_pln = 0 ∧
    (calculate c 0 h p q).cost_kicker_pln = 0 ∧
    (calculate c 0 h p q).cost_doors_pln = 0 ∧
    (calculate c 0 h p q).cost_total_pln = 0 := by
  refine ⟨?_, ?_, ?_, ?_, rfl, ?_, ?_, ?_, ?_, ?_⟩
  · rw [calculate_gray, show (0 : ℚ) * COEFF_GRAY_LIN * h = 0 by ring, pyRound_zero]
  · rw [calculate_white, show (0 : ℚ) * COEFF_KICKER_LIN * h +
      0 * COEFF_DOOR_DENSITY * avg_door_width p q *
        max 0 (h - DOOR_HEIGHT_STANDARD) = 0 by ring, pyRound_zero]
  · rw [calculate_kicker, show (0 : ℚ) * COEFF_KICKER_LIN = 0 by ring, pyRound_zero]
  · rw [calculate_door_count, show (0 : ℚ) * COEFF_DOOR_DENSITY = 0 by ring, pyRound_zero]
  · rw [calculate_cost_gray, show (0 : ℚ) * COEFF_GRAY_LIN * h * c.price_gray = 0 by ring,
      pyRound_zero]
  · rw [calculate_cost_white, show ((0 : ℚ) * COEFF_KICKER_LIN * h +
      0 * COEFF_DOOR_DENSITY * avg_door_width p q *
        max 0 (h - DOOR_HEIGHT_STANDARD)) * c.price_white = 0 by ring, pyRound_zero]
  · rw [calculate_cost_kicker, show (0 : ℚ) * COEFF_KICKER_LIN * c.price_kicker = 0 by ring,
      pyRound_zero]
  · rw [calculate_cost_doors, show door_cost c (door_count_of 0) p q = 0 by
      unfold door_cost door_count_of; ring, pyRound_zero]
  · rw [calculate_cost_total, show (0 : ℚ) * COEFF_GRAY_LIN * h * c.price_gray +
      ((0 : ℚ) * COEFF_KICKER_LIN * h +
        0 * COEFF_DOOR_DENSITY * avg_door_width p q *
          max 0 (h - DOOR_HEIGHT_STANDARD)) * c.price_white +
      (0 : ℚ) * COEFF_KICKER_LIN * c.price_kicker +
      door_cost c (door_count_of 0) p q = 0 by
        unfold door_cost door_count_of; ring, pyRound_zero]

/-- Claim C6: under the default prices, for positive floor area and height
and a door mix in the unit interval, every numeric field of the report is
nonnegative. -/
theorem C6_nonneg (pum h p q : ℚ) (hpum : 0 < pum) (hh : 0 < h)
    (hp0 : 0 ≤ p) (hp1 : p ≤ 1) (hq0 : 0 ≤ q) (hq1 : q ≤ 1) :
    0 ≤ (calculate defaultCalculator pum h p q).gray_area_m2 ∧
    0 ≤ (calculate defaultCalculator pum h p q).white_area_m2 ∧
    0 ≤ (calculate defaultCalculator pum h p q).kicker_length_mb ∧
    0 ≤ (calculate defaultCalculator pum h p q).door_count ∧
    0 ≤ (calculate defaultCalculator pum h p q).avg_door_width_m ∧
    0 ≤ (calculate defaultCalculator pum h p q).cost_gray_pln ∧
    0 ≤ (calculate defaultCalculator pum h p q).cost_white_pln ∧
    0 ≤ (calculate defaultCalculator pum h p q).cost_kicker_pln ∧
    0 ≤ (calculate defaultCalculator pum h p q).cost_doors_pln ∧
    0 ≤ (calculate defaultCalculator pum h p q).cost_total_pln := by
  have hg : (0 : ℚ) ≤ pum * COEFF_GRAY_LIN * h := by
    unfold COEFF_GRAY_LIN; positivity
  have hkl : (0 : ℚ) ≤ pum * COEFF_KICKER_LIN := by
    unfold COEFF_KICKER_LIN; positivity
  have hkh : (0 : ℚ) ≤ pum * COEFF_KICKER_LIN * h := by
    unfold COEFF_KICKER_LIN; positivity
  have havg : (0 : ℚ) ≤ avg_door_width p q := by
    unfold avg_door_width; linarith
  have hdd : (0 : ℚ) ≤ pum * COEFF_DOOR_DENSITY := by
    unfold COEFF_DOOR_DENSITY; positivity
  have hmax : (0 : ℚ) ≤ max 0 (h - DOOR_HEIGHT_STANDARD) := le_max_left 0 _
  have hw : (0 : ℚ) ≤ pum * COEFF_KICKER_LIN * h +
      pum * COEFF_DOOR_DENSITY * avg_door_width p q *
        max 0 (h - DOOR_HEIGHT_STANDARD) :=
    add_nonneg hkh (mul_nonneg (mul_nonneg hdd havg) hmax)
  have hpw : defaultCalculator.price_white = 110 := rfl
  have hpg : defaultCalculator.price_gray = 84 := rfl
  have hpk : defaultCalculator.price_kicker = 81 := rfl
  have hp075 : defaultCalculator.price_door_075m = 780 := rfl
  have hp1m : defaultCalculator.price_door_1m = 780 := rfl
  have hdc : (0 : ℚ) ≤ door_cost defaultCalculator (door_count_of pum) p q := by
    unfold door_cost door_count_of
    rw [hp075, hp1m]
    have t1 : (0 : ℚ) ≤ pum * COEFF_DOOR_DENSITY * p * 780 :=
      mul_nonneg (mul_nonneg hdd hp0) (by norm_num)
    have t2 : (0 : ℚ) ≤ pum * COEFF_DOOR_DENSITY * q * 780 :=
      mul_nonneg (mul_nonneg hdd hq0) (by norm_num)
    linarith
  refine ⟨?_, ?_, ?_, ?_, ?_, ?_, ?_, ?_, ?_, ?_⟩
  · rw [calculate_gray]; exact pyRound_nonneg 2 hg
  · rw [calculate_white]; exact pyRound_nonneg 2 hw
  · rw [calculate_kicker]; exact pyRound_nonneg 2 hkl
  · rw [calculate_door_count]; exact pyRound_nonneg 1 hdd
  · rw [calculate_avg]; exact pyRound_nonneg 3 havg
  · rw [calculate_cost_gray]
    exact pyRound_nonneg 2 (mul_nonneg hg (by rw [hpg]; norm_num))
  · rw [calculate_cost_white]
    exact pyRound_nonneg 2 (mul_nonneg hw (by rw [hpw]; norm_num))
  · rw [calculate_cost_kicker]
    exact pyRound_nonneg 2 (mul_nonneg hkl (by rw [hpk]; norm_num))
  · rw [calculate_cost_doors]; exact pyRound_nonneg 2 hdc
  · rw [calculate_cost_total]
    refine pyRound_nonneg 2 ?_
    have c1 : (0 : ℚ) ≤ pum * COEFF_GRAY_LIN * h * defaultCalculator.price_gray :=
      mul_nonneg hg (by rw [hpg]; norm_num)
    have c2 : (0 : ℚ) ≤ (pum * COEFF_KICKER_LIN * h +
        pum * COEFF_DOOR_DENSITY * avg_door_width p q *
          max 0 (h - DOOR_HEIGHT_STANDARD)) * defaultCalculator.price_white :=
      mul_nonneg hw (by rw [hpw]; norm_num)
    have c3 : (0 : ℚ) ≤ pum * COEFF_KICKER_LIN * defaultCalculator.price_kicker :=
      mul_nonneg hkl (by rw [hpk]; norm_num)
    linarith

/-- Witness for claim C6 at floor area 130, height 2.7, door mix 60/40. -/
theorem C6_nonneg_witness :
    0 ≤ (calculate defaultCalculator 130 2.7 0.6 0.4).gray_area_m2 ∧
    0 ≤ (calculate defaultCalculator 130 2.7 0.6 0.4).white_area_m2 ∧
    0 ≤ (calculate defaultCalculator 130 2.7 0.6 0.4).kicker_length_mb ∧
    0 ≤ (calculate defaultCalculator 130 2.7 0.6 0.4).door_count ∧
    0 ≤ (calculate defaultCalculator 130 2.7 0.6 0.4).avg_door_width_m ∧
    0 ≤ (calculate defaultCalculator 130 2.7 0.6 0.4).cost_gray_pln ∧
    0 ≤ (calculate defaultCalculator 130 2.7 0.6 0.4).cost_white_pln ∧
    0 ≤ (calculate defaultCalculator 130 2.7 0.6 0.4).cost_kicker_pln ∧
    0 ≤ (calculate defaultCalculator 130 2.7 0.6 0.4).cost_doors_pln ∧
    0 ≤ (calculate defaultCalculator 130 2.7 0.6 0.4).cost_total_pln :=
  C6_nonneg 130 2.7 0.6 0.4 (by norm_num) (by norm_num) (by norm_num)
    (by norm_num) (by norm_num) (by norm_num)

/-- Claim C7 counterexample: at floor area 126.5, height 2.5 and mix 65/35
the report gives gray 249.84, white 85.45 and kicker 29.1, each exceeding
the historical Project B reference values 217.5, 73.48 and 23.75 by far
more than any rounding tolerance. -/
theorem C7_calibration_cex :
    (calculate defaultCalculator 126.5 2.5 0.65 0.35).gray_area_m2 = 249.84 ∧
    (calculate defaultCalculator 126.5 2.5 0.65 0.35).white_area_m2 = 85.45 ∧
    (calculate defaultCalculator 126.5 2.5 0.65 0.35).kicker_length_mb = 29.1 ∧
    (217.5 : ℚ) + 32 < 249.84 ∧ (73.48 : ℚ) + 11 < 85.45 ∧ (23.75 : ℚ) + 5 < 29.1 := by
  refine ⟨?_, ?_, ?_, by norm_num, by norm_num, by norm_num⟩
  · rw [calculate_gray]
    exact pyRound_eval_high (a := 24984) (by norm_num [COEFF_GRAY_LIN])
      (by norm_num [COEFF_GRAY_LIN]) (by norm_num)
  · rw [calculate_white]
    exact pyRound_eval_low (a := 8545)
      (by norm_num [COEFF_KICKER_LIN, COEFF_DOOR_DENSITY, DOOR_HEIGHT_STANDARD,
        avg_door_width, max_def])
      (by norm_num [COEFF_KICKER_LIN, COEFF_DOOR_DENSITY, DOOR_HEIGHT_STANDARD,
        avg_door_width, max_def])
      (by norm_num)
  · rw [calculate_kicker]
    exact pyRound_eval_half_odd (a := 2909)
      (by norm_num [COEFF_KICKER_LIN]) (by decide) (by norm_num)

/-- Claim C7 (amended): at floor area 126.5, height 2.5 and mix 65/35 the
report fields are gray 249.84, white 85.45 and kicker 29.1, a calibration
discrepancy of 32.34, 11.97 and 5.35 above the historical Project B values
217.5, 73.48 and 23.75. -/
theorem C7_calibration :
    (calculate defaultCalculator 126.5 2.5 0.65 0.35).gray_area_m2 = 249.84 ∧
    (calculate defaultCalculator 126.5 2.5 0.65 0.35).white_area_m2 = 85.45 ∧
    (calculate defaultCalculator 126.5 2.5 0.65 0.35).kicker_length_mb = 29.1 ∧
    (249.84 : ℚ) - 217.5 = 32.34 ∧ (85.45 : ℚ) - 73.48 = 11.97 ∧
    (29.1 : ℚ) - 23.75 = 5.35 := by
  refine ⟨?_, ?_, ?_, by norm_num, by norm_num, by norm_num⟩
  · rw [calculate_gray]
    exact pyRound_eval_high (a := 24984) (by norm_num [COEFF_GRAY_LIN])
      (by norm_num [COEFF_GRAY_LIN]) (by norm_num)
  · rw [calculate_white]
    exact pyRound_eval_low (a := 8545)
      (by norm_num [COEFF_KICKER_LIN, COEFF_DOOR_DENSITY, DOOR_HEIGHT_STANDARD,
        avg_door_width, max_def])
      (by norm_num [COEFF_KICKER_LIN, COEFF_DOOR_DENSITY, DOOR_HEIGHT_STANDARD,
        avg_door_width, max_def])
      (by norm_num)
  · rw [calculate_kicker]
    exact pyRound_eval_half_odd (a := 2909)
      (by norm_num [COEFF_KICKER_LIN]) (by decide) (by norm_num)

/-- Claim C8: swapping the two heights passed to the sensitivity analysis
swaps the two returned reports and negates the three savings fields. -/
theorem C8_swap (c : SelfStorageCostCalculator) (pum h1 h2 p q : ℚ) :
    (height_sensitivity_analysis c pum h2 h1 p q).1 =
      (height_sensitivity_analysis c pum h1 h2 p q).2.1 ∧
    (height_sensitivity_analysis c pum h2 h1 p q).2.1 =
      (height_sensitivity_analysis c pum h1 h2 p q).1 ∧
    (height_sensitivity_analysis c pum h2 h1 p q).2.2.savings_white_pln =
      -(height_sensitivity_analysis c pum h1 h2 p q).2.2.savings_white_pln ∧
    (height_sensitivity_analysis c pum h2 h1 p q).2.2.savings_gray_pln =
      -(height_sensitivity_analysis c pum h1 h2 p q).2.2.savings_gray_pln ∧
    (height_sensitivity_analysis c pum h2 h1 p q).2.2.savings_total_pln =
      -(height_sensitivity_analysis c pum h1 h2 p q).2.2.savings_total_pln := by
  refine ⟨rfl, rfl, ?_, ?_, ?_⟩
  · show pyRound 2 ((calculate c pum h2 p q).cost_white_pln -
      (calculate c pum h1 p q).cost_white_pln) =
      -(pyRound 2 ((calculate c pum h1 p q).cost_white_pln -
        (calculate c pum h2 p q).cost_white_pln))
    rw [calculate_cost_white c pum h2 p q, calculate_cost_white c pum h1 p q,
      pyRound_sub_pyRound, pyRound_sub_pyRound]
    ring
  · show pyRound 2 ((calculate c pum h2 p q).cost_gray_pln -
      (calculate c pum h1 p q).cost_gray_pln) =
      -(pyRound 2 ((calculate c pum h1 p q).cost_gray_pln -
        (calculate c pum h2 p q).cost_gray_pln))
    rw [calculate_cost_gray c pum h2 p q, calculate_cost_gray c pum h1 p q,
      pyRound_sub_pyRound, pyRound_sub_pyRound]
    ring
  · show pyRound 2 ((calculate c pum h2 p q).cost_total_pln -
      (calculate c pum h1 p q).cost_total_pln) =
      -(pyRound 2 ((calculate c pum h1 p q).cost_total_pln -
        (calculate c pum h2 p q).cost_total_pln))
    rw [calculate_cost_total c pum h2 p q, calculate_cost_total c pum h1 p q,
      pyRound_sub_pyRound, pyRound_sub_pyRound]
    ring

/-- Claim C9: with the default equal door prices the door cost is the door
count times 780 times the sum of the two mix percentages, hence exactly the
door count times 780 whenever the mix sums to one, independently of the mix. -/
theorem C9_door_cost :
    (∀ n p q : ℚ, door_cost defaultCalculator n p q = n * 780 * (p + q)) ∧
    (∀ n p q : ℚ, p + q = 1 → door_cost defaultCalculator n p q = n * 780) := by
  have hgen : ∀ n p q : ℚ, door_cost defaultCalculator n p q = n * 780 * (p + q) := by
    intro n p q
    unfold door_cost
    rw [show defaultCalculator.price_door_075m = 780 from rfl,
      show defaultCalculator.price_door_1m = 780 from rfl]
    ring
  exact ⟨hgen, fun n p q hpq => by rw [hgen n p q, hpq, mul_one]⟩

/-- Witness for claim C9 at door count 10 and mix 60/40. -/
theorem C9_door_cost_witness : door_cost defaultCalculator 10 0.6 0.4 = 10 * 780 :=
  C9_door_cost.2 10 0.6 0.4 (by norm_num)

/-- Claim C10: the door-count field holds the continuous estimate, the floor
area times 0.30 rounded to one decimal, and at floor area 11 it is 3.3,
strictly between the integers 3 and 4. -/
theorem C10_door_count :
    (∀ (c : SelfStorageCostCalculator) (pum h p q : ℚ),
      (calculate c pum h p q).door_count = pyRound 1 (pum * 0.30)) ∧
    (calculate defaultCalculator 11 2.5 (1/2) (1/2)).door_count = 3.3 ∧
    3 < (calculate defaultCalculator 11 2.5 (1/2) (1/2)).door_count ∧
    (calculate defaultCalculator 11 2.5 (1/2) (1/2)).door_count < 4 := by
  have h33 : (calculate defaultCalculator 11 2.5 (1/2) (1/2)).door_count = 3.3 := by
    rw [calculate_door_count]
    exact pyRound_eval_low (a := 33) (by norm_num [COEFF_DOOR_DENSITY])
      (by norm_num [COEFF_DOOR_DENSITY]) (by norm_num)
  exact ⟨fun c pum h p q => rfl, h33, by rw [h33]; norm_num, by rw [h33]; norm_num⟩
